import Mathlib

/-!
Verification of the batch scrape orchestrator in
`samples/scrape_person_contacts.py`.

The script is embedded shallowly as a pure function from the tabular input
source and an environment (the behaviour of the external collaborators:
the scraper, the screenshot capture, the session loader) to the ordered
trace of observable events it produces, together with how the run exits.

Correspondence with the Python source:
* `Row` models one worksheet row; an absent/NaN cell is `none`.
* `conclusionPass` models
  `df["Conclusion"].fillna("").astype(str).str.lower() == "yes"`.
* `candidateRows` models the filtered frame together with `iterrows()`
  (pandas keeps the original 0-based positional index of each row).
* `stepRow` models one iteration of the `for index, row in ...` loop.
* `runLoop` models the whole loop; the `Bool` component records whether an
  exception escaped the loop body (only the unguarded
  `browser.page.screenshot(...)` call inside the `except` block can do so,
  since every other fallible collaborator call is inside `try`).
* `runMain` models `main()`: the existence check on the Excel file, the
  `read_excel` try/except, the empty-candidates early return, the
  `async with BrowserManager(...)` block (whose `__aexit__` closes the
  browser on normal and exceptional exit alike), the `load_session`
  try/except, the loop, and the final "Batch processing done!" print.
-/

namespace ScrapeBatch

/-- One work-experience entry of a scraped profile. -/
structure Experience where
  position_title : String
  institution_name : String
deriving DecidableEq

/-- One education entry of a scraped profile. -/
structure Education where
  institution_name : String
deriving DecidableEq

/-- A scraped profile as returned by `scraper.scrape`.  A `None`/empty
about-text is modelled as the empty string (both are falsy in Python). -/
structure Person where
  name : String
  location : String
  about : String
  experiences : List Experience
  educations : List Education
deriving DecidableEq

/-- An error raised by the scraper: `kind` models `type(e).__name__`,
`msg` models `str(e)`. -/
structure ScrapeErr where
  kind : String
  msg : String
deriving DecidableEq

/-- Result of one `scraper.scrape(url)` call. -/
inductive ScrapeResult where
  | ok (p : Person)
  | err (e : ScrapeErr)
deriving DecidableEq

/-- One row of the "2013" sheet.  `linkedin` is `none` when the cell is
missing/NaN (`pd.isna`); an empty-string cell is `some ""`. -/
structure Row where
  nama : String
  linkedin : Option String
  conclusion : Option String
deriving DecidableEq

/-- The tabular input source: the file may be absent, unreadable as Excel,
or readable with a list of rows on the requested sheet. -/
inductive ExcelSource where
  | missing
  | unreadable (msg : String)
  | sheet (rows : List Row)

/-- Behaviour of the external collaborators during one run. -/
structure Env where
  sessionLoad : Except String Unit
  scrape : Nat → String → ScrapeResult
  screenshotOk : Nat → Bool
  pageURL : Nat → String

/-- The data shown by the success report: name, location, the about-text
display (`person.about[:100] if person.about else 'N/A'`), and the count
and first-two entries of the experience and education sequences. -/
structure SuccessSummary where
  name : String
  location : String
  aboutShown : String
  expCount : Nat
  expShown : List Experience
  eduCount : Nat
  eduShown : List Education
deriving DecidableEq

/-- Builds the success report from a scraped profile, following the print
statements of the success branch. -/
def mkSummary (p : Person) : SuccessSummary :=
  { name := p.name
    location := p.location
    aboutShown := if p.about = "" then "N/A" else p.about.take 100
    expCount := p.experiences.length
    expShown := p.experiences.take 2
    eduCount := p.educations.length
    eduShown := p.educations.take 2 }

/-- The fixed settle delay `await asyncio.sleep(15)` after a successful
scrape. -/
def settleSecs : ℚ := 15

/-- Lower bound of `random.uniform(2.2, 4.313)`. -/
def jitterLo : ℚ := 2.2

/-- Upper bound of `random.uniform(2.2, 4.313)`. -/
def jitterHi : ℚ := 4.313

/-- Observable events of a run, in program order. -/
inductive Event where
  | errFileMissing
  | readingData
  | errRead (msg : String)
  | foundCandidates (n : Nat)
  | noCandidates
  | openBrowser
  | sessionLoaded
  | sessionWarn (msg : String)
  | startScrape (idx : Nat) (url : String)
  | sleepFixed (secs : ℚ)
  | outcomeSuccess (idx : Nat) (s : SuccessSummary)
  | sleepUniform (lo hi : ℚ)
  | outcomeSkipped (idx : Nat) (name : String)
  | outcomeFailed (idx : Nat) (kind msg pageURL : String)
  | screenshot (path : String)
  | closeBrowser
  | batchDone
deriving DecidableEq

/-- How the run ends. -/
inductive RunExit where
  | abortedInput
  | noCandidates
  | normal
  | crashed
deriving DecidableEq

/-- Python `str.lower()` (character-wise case folding). -/
def pyLower (s : String) : String :=
  ⟨s.data.map Char.toLower⟩

/-- Python `str.strip()`: removes whitespace from both ends. -/
def pyStrip (s : String) : String :=
  ⟨((s.data.dropWhile Char.isWhitespace).reverse.dropWhile Char.isWhitespace).reverse⟩

/-- Python truthiness of a string: nonempty. -/
def pyTruthy (s : String) : Bool :=
  !s.data.isEmpty

/-- The inclusion predicate
`df["Conclusion"].fillna("").astype(str).str.lower() == "yes"`:
missing values become `""`, the value is case-folded and compared with
`"yes"`.  Note the source applies no trimming. -/
def conclusionPass (r : Row) : Bool :=
  pyLower (r.conclusion.getD "") == "yes"

/-- The filtered frame with the original positional row indices, as
iterated by `candidates.iterrows()`. -/
def candidateRows (rows : List Row) : List (Nat × Row) :=
  rows.enum.filter fun p => conclusionPass p.2

/-- The URL-presence check `not linkedin_url or pd.isna(linkedin_url)`
(negated): `none` models NaN, and an empty string is falsy in Python.  A
whitespace-only string passes this check. -/
def urlPresent : Option String → Bool
  | none => false
  | some s => pyTruthy s

/-- Diagnostic artifact path `f"error_{index}.png"`. -/
def screenshotPath (i : Nat) : String :=
  "error_" ++ toString i ++ ".png"

/-- Events of the success branch: the scrape call, the 15-unit settle
sleep, the success report, and the `random.uniform(2.2, 4.313)` pacing
sleep. -/
def successEvents (i : Nat) (url : String) (p : Person) : List Event :=
  [.startScrape i url, .sleepFixed settleSecs,
   .outcomeSuccess i (mkSummary p), .sleepUniform jitterLo jitterHi]

/-- Events of the failure branch up to and including the Failed outcome
(the error prints and the current-URL print precede the screenshot call). -/
def failEvents (env : Env) (i : Nat) (url : String) (e : ScrapeErr) : List Event :=
  [.startScrape i url, .outcomeFailed i e.kind e.msg (env.pageURL i)]

/-- One iteration of the candidate loop for the pair (positional index,
row).  The `Bool` is `true` when an exception escapes the iteration, which
happens exactly when the scrape fails and the unguarded screenshot call in
the `except` block then also fails. -/
def stepRow (env : Env) (p : Nat × Row) : List Event × Bool :=
  match p.2.linkedin with
  | none => ([.outcomeSkipped p.1 p.2.nama], false)
  | some u =>
    if pyTruthy u then
      match env.scrape p.1 (pyStrip u) with
      | .ok person => (successEvents p.1 (pyStrip u) person, false)
      | .err e =>
        if env.screenshotOk p.1 then
          (failEvents env p.1 (pyStrip u) e ++ [.screenshot (screenshotPath p.1)], false)
        else
          (failEvents env p.1 (pyStrip u) e, true)
    else ([.outcomeSkipped p.1 p.2.nama], false)

/-- The candidate loop.  A crashed iteration ends the loop immediately;
its own events are kept (they happened before the exception). -/
def runLoop (env : Env) : List (Nat × Row) → List Event × Bool
  | [] => ([], false)
  | p :: rest =>
    if (stepRow env p).2 then ((stepRow env p).1, true)
    else ((stepRow env p).1 ++ (runLoop env rest).1, (runLoop env rest).2)

/-- The single event produced by the `load_session` try/except. -/
def sessionEvent (env : Env) : Event :=
  match env.sessionLoad with
  | .ok _ => .sessionLoaded
  | .error m => .sessionWarn m

/-- Events preceding the loop once the browser is opened. -/
def preludeEvents (env : Env) (n : Nat) : List Event :=
  [.readingData, .foundCandidates n, .openBrowser, sessionEvent env]

/-- The whole of `main()`: trace of events and run exit.  The
`.closeBrowser` event appears on the normal path and on the crashed path
alike, because `async with BrowserManager(...)` runs its exit handler when
an exception propagates out of the loop. -/
def runMain (src : ExcelSource) (env : Env) : List Event × RunExit :=
  match src with
  | .missing => ([.errFileMissing], .abortedInput)
  | .unreadable m => ([.readingData, .errRead m], .abortedInput)
  | .sheet rows =>
    if (candidateRows rows).isEmpty then
      ([.readingData, .foundCandidates (candidateRows rows).length, .noCandidates],
       .noCandidates)
    else if (runLoop env (candidateRows rows)).2 then
      (preludeEvents env (candidateRows rows).length
         ++ (runLoop env (candidateRows rows)).1 ++ [.closeBrowser],
       .crashed)
    else
      (preludeEvents env (candidateRows rows).length
         ++ (runLoop env (candidateRows rows)).1 ++ [.closeBrowser, .batchDone],
       .normal)

/-- Recognizes a scrape attempt for row index `i`. -/
def isStartScrapeAt (i : Nat) : Event → Bool
  | .startScrape j _ => j == i
  | _ => false

/-- Whether the trace contains a scrape attempt for row index `i`. -/
def scrapeAttempted (t : List Event) (i : Nat) : Bool :=
  t.any (isStartScrapeAt i)

/-- Recognizes any of the three outcome events. -/
def isOutcome : Event → Bool
  | .outcomeSuccess _ _ => true
  | .outcomeSkipped _ _ => true
  | .outcomeFailed _ _ _ _ => true
  | _ => false

/-- The row index carried by an outcome event, if any. -/
def outcomeIdx : Event → Option Nat
  | .outcomeSuccess i _ => some i
  | .outcomeSkipped i _ => some i
  | .outcomeFailed i _ _ _ => some i
  | _ => none

/-- Row indices of the outcome events of a trace, in trace order. -/
def outcomeIndices (t : List Event) : List Nat :=
  t.filterMap outcomeIdx

/-- Recognizes a Success outcome event. -/
def isSuccessEvent : Event → Bool
  | .outcomeSuccess _ _ => true
  | _ => false

/-- Recognizes a randomized pacing sleep event. -/
def isUniformSleep : Event → Bool
  | .sleepUniform _ _ => true
  | _ => false

/-- Recognizes a Skipped outcome for row index `i`. -/
def isSkippedAt (i : Nat) : Event → Bool
  | .outcomeSkipped j _ => j == i
  | _ => false

/-- Recognizes the browser-open event. -/
def isOpenBrowser : Event → Bool
  | .openBrowser => true
  | _ => false

/-- Recognizes the browser-close event. -/
def isCloseBrowser : Event → Bool
  | .closeBrowser => true
  | _ => false

/-! Concrete fixtures used to evaluate the model on closed inputs. -/

/-- A row accepted by the filter, with a usable URL. -/
def rowYesA : Row :=
  { nama := "Alice", linkedin := some "https://x/a", conclusion := some "Yes" }

/-- A second accepted row with a usable URL. -/
def rowYesB : Row :=
  { nama := "Bob", linkedin := some "https://x/b", conclusion := some "yes" }

/-- A row whose conclusion cell carries surrounding whitespace. -/
def rowPadded : Row :=
  { nama := "Pad", linkedin := some "https://x/p", conclusion := some " yes " }

/-- An accepted row whose URL cell is whitespace only. -/
def rowWs : Row :=
  { nama := "Wendy", linkedin := some "   ", conclusion := some "Yes" }

/-- A sample scraped profile. -/
def personA : Person :=
  { name := "Alice A", location := "Jakarta", about := "hello",
    experiences := [], educations := [] }

/-- A sample scraper error. -/
def errT : ScrapeErr := { kind := "TimeoutError", msg := "nav timeout" }

/-- Collaborators all succeed. -/
def envAllOk : Env :=
  { sessionLoad := .ok (), scrape := fun _ _ => .ok personA,
    screenshotOk := fun _ => true, pageURL := fun _ => "about:blank" }

/-- Every scrape raises; screenshots succeed. -/
def envAllFail : Env :=
  { sessionLoad := .ok (), scrape := fun _ _ => .err errT,
    screenshotOk := fun _ => true, pageURL := fun _ => "about:blank" }

/-- Every scrape raises, and the screenshot for row 0 also raises. -/
def envShotCrash : Env :=
  { sessionLoad := .ok (), scrape := fun _ _ => .err errT,
    screenshotOk := fun i => i != 0, pageURL := fun _ => "about:blank" }

/-- Session restoration fails; everything else succeeds. -/
def envSessFail : Env :=
  { sessionLoad := .error "file not found", scrape := fun _ _ => .ok personA,
    screenshotOk := fun _ => true, pageURL := fun _ => "about:blank" }

/-- A scraped profile whose about-text is absent (falsy in Python). -/
def personNoAbout : Person :=
  { name := "Noah A", location := "Bandung", about := "",
    experiences := [], educations := [] }

/-- Every scrape succeeds with the about-less profile. -/
def envNoAbout : Env :=
  { sessionLoad := .ok (), scrape := fun _ _ => .ok personNoAbout,
    screenshotOk := fun _ => true, pageURL := fun _ => "about:blank" }

/-! Helper lemmas about one loop iteration. -/

/-- A missing/NaN URL produces exactly the Skipped outcome. -/
theorem stepRow_none (env : Env) (i : Nat) (r : Row) (h : r.linkedin = none) :
    stepRow env (i, r) = ([.outcomeSkipped i r.nama], false) := by
  simp [stepRow, h]

/-- A falsy (empty-string) URL produces exactly the Skipped outcome. -/
theorem stepRow_blank (env : Env) (i : Nat) (r : Row) (u : String)
    (h : r.linkedin = some u) (hu : pyTruthy u = false) :
    stepRow env (i, r) = ([.outcomeSkipped i r.nama], false) := by
  simp [stepRow, h, hu]

/-- The success branch of one iteration. -/
theorem stepRow_ok (env : Env) (i : Nat) (r : Row) (u : String) (person : Person)
    (h : r.linkedin = some u) (hu : pyTruthy u = true)
    (hs : env.scrape i (pyStrip u) = .ok person) :
    stepRow env (i, r) = (successEvents i (pyStrip u) person, false) := by
  simp [stepRow, h, hu, hs]

/-- The failure branch when the diagnostic screenshot succeeds. -/
theorem stepRow_fail_shot (env : Env) (i : Nat) (r : Row) (u : String) (e : ScrapeErr)
    (h : r.linkedin = some u) (hu : pyTruthy u = true)
    (hs : env.scrape i (pyStrip u) = .err e) (hshot : env.screenshotOk i = true) :
    stepRow env (i, r)
      = (failEvents env i (pyStrip u) e ++ [.screenshot (screenshotPath i)], false) := by
  simp [stepRow, h, hu, hs, hshot]

/-- The failure branch when the diagnostic screenshot also raises: the
iteration crashes after recording the Failed outcome. -/
theorem stepRow_fail_noshot (env : Env) (i : Nat) (r : Row) (u : String) (e : ScrapeErr)
    (h : r.linkedin = some u) (hu : pyTruthy u = true)
    (hs : env.scrape i (pyStrip u) = .err e) (hshot : env.screenshotOk i = false) :
    stepRow env (i, r) = (failEvents env i (pyStrip u) e, true) := by
  simp [stepRow, h, hu, hs, hshot]

/-- An iteration whose screenshot capture succeeds never crashes. -/
theorem stepRow_not_crashed (env : Env) (p : Nat × Row)
    (h : env.screenshotOk p.1 = true) : (stepRow env p).2 = false := by
  obtain ⟨i, r⟩ := p
  rcases hr : r.linkedin with _ | u
  · rw [stepRow_none env i r hr]
  · by_cases hu : pyTruthy u = true
    · rcases hs : env.scrape i (pyStrip u) with person | e
      · rw [stepRow_ok env i r u person hr hu hs]
      · rw [stepRow_fail_shot env i r u e hr hu hs h]
    · rw [stepRow_blank env i r u hr (by simpa using hu)]

/-- Every iteration records exactly one outcome, keyed by its own row
index. -/
theorem outcomeIndices_stepRow (env : Env) (p : Nat × Row) :
    outcomeIndices (stepRow env p).1 = [p.1] := by
  obtain ⟨i, r⟩ := p
  rcases hr : r.linkedin with _ | u
  · simp [stepRow_none env i r hr, outcomeIndices, outcomeIdx]
  · by_cases hu : pyTruthy u = true
    · rcases hs : env.scrape i (pyStrip u) with person | e
      · simp [stepRow_ok env i r u person hr hu hs, successEvents,
              outcomeIndices, outcomeIdx]
      · by_cases hshot : env.screenshotOk i = true
        · simp [stepRow_fail_shot env i r u e hr hu hs hshot, failEvents,
                outcomeIndices, outcomeIdx]
        · simp [stepRow_fail_noshot env i r u e hr hu hs
                  (by simpa using hshot), failEvents, outcomeIndices, outcomeIdx]
    · simp [stepRow_blank env i r u hr (by simpa using hu),
            outcomeIndices, outcomeIdx]

/-- An iteration attempts a scrape for `j` exactly when it is its own row
index and the URL check passes. -/
theorem scrapeAttempted_stepRow (env : Env) (p : Nat × Row) (j : Nat) :
    (stepRow env p).1.any (isStartScrapeAt j)
      = (p.1 == j && urlPresent p.2.linkedin) := by
  obtain ⟨i, r⟩ := p
  rcases hr : r.linkedin with _ | u
  · simp [stepRow_none env i r hr, isStartScrapeAt, urlPresent, hr]
  · by_cases hu : pyTruthy u = true
    · rcases hs : env.scrape i (pyStrip u) with person | e
      · simp [stepRow_ok env i r u person hr hu hs, successEvents,
              isStartScrapeAt, urlPresent, hr, hu]
      · by_cases hshot : env.screenshotOk i = true
        · simp [stepRow_fail_shot env i r u e hr hu hs hshot, failEvents,
                isStartScrapeAt, urlPresent, hr, hu, screenshotPath]
        · simp [stepRow_fail_noshot env i r u e hr hu hs
                  (by simpa using hshot), failEvents, isStartScrapeAt,
                urlPresent, hr, hu]
    · have hu' : pyTruthy u = false := by simpa using hu
      simp [stepRow_blank env i r u hr hu', isStartScrapeAt, urlPresent, hr, hu']

/-- An iteration records a Skipped outcome for `j` exactly when it is its
own row index and the URL check fails. -/
theorem skippedAt_stepRow (env : Env) (p : Nat × Row) (j : Nat) :
    (stepRow env p).1.any (isSkippedAt j)
      = (p.1 == j && !urlPresent p.2.linkedin) := by
  obtain ⟨i, r⟩ := p
  rcases hr : r.linkedin with _ | u
  · simp [stepRow_none env i r hr, isSkippedAt, urlPresent, hr]
  · by_cases hu : pyTruthy u = true
    · rcases hs : env.scrape i (pyStrip u) with person | e
      · simp [stepRow_ok env i r u person hr hu hs, successEvents,
              isSkippedAt, urlPresent, hr, hu]
      · by_cases hshot : env.screenshotOk i = true
        · simp [stepRow_fail_shot env i r u e hr hu hs hshot, failEvents,
                isSkippedAt, urlPresent, hr, hu]
        · simp [stepRow_fail_noshot env i r u e hr hu hs
                  (by simpa using hshot), failEvents, isSkippedAt,
                urlPresent, hr, hu]
    · have hu' : pyTruthy u = false := by simpa using hu
      simp [stepRow_blank env i r u hr hu', isSkippedAt, urlPresent, hr, hu']

/-- The randomized pacing sleeps of one iteration: one per Success
outcome, always with the parameters 2.2 and 4.313. -/
theorem uniform_stepRow (env : Env) (p : Nat × Row) :
    (stepRow env p).1.filter isUniformSleep
      = List.replicate ((stepRow env p).1.countP isSuccessEvent)
          (.sleepUniform jitterLo jitterHi) := by
  obtain ⟨i, r⟩ := p
  rcases hr : r.linkedin with _ | u
  · simp [stepRow_none env i r hr, isUniformSleep, isSuccessEvent]
  · by_cases hu : pyTruthy u = true
    · rcases hs : env.scrape i (pyStrip u) with person | e
      · simp [stepRow_ok env i r u person hr hu hs, successEvents,
              isUniformSleep, isSuccessEvent, List.filter, List.countP,
              List.countP.go]
      · by_cases hshot : env.screenshotOk i = true
        · simp [stepRow_fail_shot env i r u e hr hu hs hshot, failEvents,
                isUniformSleep, isSuccessEvent]
        · simp [stepRow_fail_noshot env i r u e hr hu hs
                  (by simpa using hshot), failEvents, isUniformSleep,
                isSuccessEvent]
    · simp [stepRow_blank env i r u hr (by simpa using hu),
            isUniformSleep, isSuccessEvent]

/-- An iteration never opens a browser. -/
theorem no_open_stepRow (env : Env) (p : Nat × Row) :
    (stepRow env p).1.any isOpenBrowser = false := by
  obtain ⟨i, r⟩ := p
  rcases hr : r.linkedin with _ | u
  · simp [stepRow_none env i r hr, isOpenBrowser]
  · by_cases hu : pyTruthy u = true
    · rcases hs : env.scrape i (pyStrip u) with person | e
      · simp [stepRow_ok env i r u person hr hu hs, successEvents, isOpenBrowser]
      · by_cases hshot : env.screenshotOk i = true
        · simp [stepRow_fail_shot env i r u e hr hu hs hshot, failEvents,
                isOpenBrowser]
        · simp [stepRow_fail_noshot env i r u e hr hu hs
                  (by simpa using hshot), failEvents, isOpenBrowser]
    · simp [stepRow_blank env i r u hr (by simpa using hu), isOpenBrowser]

/-- An iteration never closes the browser. -/
theorem no_close_stepRow (env : Env) (p : Nat × Row) :
    (stepRow env p).1.any isCloseBrowser = false := by
  obtain ⟨i, r⟩ := p
  rcases hr : r.linkedin with _ | u
  · simp [stepRow_none env i r hr, isCloseBrowser]
  · by_cases hu : pyTruthy u = true
    · rcases hs : env.scrape i (pyStrip u) with person | e
      · simp [stepRow_ok env i r u person hr hu hs, successEvents, isCloseBrowser]
      · by_cases hshot : env.screenshotOk i = true
        · simp [stepRow_fail_shot env i r u e hr hu hs hshot, failEvents,
                isCloseBrowser]
        · simp [stepRow_fail_noshot env i r u e hr hu hs
                  (by simpa using hshot), failEvents, isCloseBrowser]
    · simp [stepRow_blank env i r u hr (by simpa using hu), isCloseBrowser]

/-! Helper lemmas about the candidate loop. -/

/-- Unfolding of the loop on a cons cell. -/
theorem runLoop_cons (env : Env) (p : Nat × Row) (rest : List (Nat × Row)) :
    runLoop env (p :: rest)
      = if (stepRow env p).2 then ((stepRow env p).1, true)
        else ((stepRow env p).1 ++ (runLoop env rest).1, (runLoop env rest).2) := rfl

/-- If no iteration crashes, the loop does not crash. -/
theorem runLoop_not_crashed (env : Env) (l : List (Nat × Row))
    (h : ∀ p ∈ l, (stepRow env p).2 = false) : (runLoop env l).2 = false := by
  induction l with
  | nil => rfl
  | cons p rest ih =>
    have hp := h p (by simp)
    have ih2 := ih fun q hq => h q (by simp [hq])
    simp [runLoop_cons, hp, ih2]

/-- If no iteration crashes, a trace search over the loop reduces to a
search over the individual iterations. -/
theorem any_runLoop (env : Env) (f : Event → Bool) (l : List (Nat × Row))
    (h : ∀ p ∈ l, (stepRow env p).2 = false) :
    (runLoop env l).1.any f = l.any fun p => (stepRow env p).1.any f := by
  induction l with
  | nil => rfl
  | cons p rest ih =>
    have hp := h p (by simp)
    have ih2 := ih fun q hq => h q (by simp [hq])
    simp [runLoop_cons, hp, List.any_append, ih2]

/-- A search that fails on every iteration fails on the loop, crashed or
not. -/
theorem any_runLoop_false (env : Env) (f : Event → Bool) (l : List (Nat × Row))
    (h : ∀ p, (stepRow env p).1.any f = false) :
    (runLoop env l).1.any f = false := by
  induction l with
  | nil => rfl
  | cons p rest ih =>
    by_cases hc : (stepRow env p).2 = true
    · simp [runLoop_cons, hc, h p]
    · have hc' : (stepRow env p).2 = false := by simpa using hc
      simp [runLoop_cons, hc', List.any_append, h p, ih]

/-- Events of a non-crashing iteration of the worklist appear in the loop
trace. -/
theorem mem_runLoop_of_mem_step (env : Env) (l : List (Nat × Row)) (p : Nat × Row)
    (x : Event) (h : ∀ q ∈ l, (stepRow env q).2 = false)
    (hp : p ∈ l) (hx : x ∈ (stepRow env p).1) : x ∈ (runLoop env l).1 := by
  induction l with
  | nil => simp at hp
  | cons q rest ih =>
    have hq := h q (by simp)
    have ih2 := ih fun a ha => h a (by simp [ha])
    rcases List.mem_cons.mp hp with rfl | hp2
    · simp only [runLoop_cons, hq, if_false, Bool.false_eq_true]
      simpa using Or.inl hx
    · simp only [runLoop_cons, hq, if_false, Bool.false_eq_true]
      simpa using Or.inr (ih2 hp2)

/-- Outcome indices distribute over trace concatenation. -/
theorem outcomeIndices_append (t1 t2 : List Event) :
    outcomeIndices (t1 ++ t2) = outcomeIndices t1 ++ outcomeIndices t2 :=
  List.filterMap_append t1 t2 outcomeIdx

/-- If no iteration crashes, the loop records exactly one outcome per
worklist entry, in worklist order, keyed by the entry's row index. -/
theorem outcomeIndices_runLoop (env : Env) (l : List (Nat × Row))
    (h : ∀ p ∈ l, (stepRow env p).2 = false) :
    outcomeIndices (runLoop env l).1 = l.map Prod.fst := by
  induction l with
  | nil => rfl
  | cons p rest ih =>
    have hp := h p (by simp)
    have ih2 := ih fun q hq => h q (by simp [hq])
    have step : (runLoop env (p :: rest)).1
        = (stepRow env p).1 ++ (runLoop env rest).1 := by
      rw [runLoop_cons]; simp [hp]
    rw [step, outcomeIndices_append, outcomeIndices_stepRow, ih2, List.map_cons]
    rfl

/-- The randomized pacing sleeps of the whole loop: one per Success
outcome, always with the parameters 2.2 and 4.313.  This holds whether or
not the loop crashes. -/
theorem uniform_runLoop (env : Env) (l : List (Nat × Row)) :
    (runLoop env l).1.filter isUniformSleep
      = List.replicate ((runLoop env l).1.countP isSuccessEvent)
          (.sleepUniform jitterLo jitterHi) := by
  induction l with
  | nil => rfl
  | cons p rest ih =>
    by_cases hc : (stepRow env p).2 = true
    · have step : (runLoop env (p :: rest)).1 = (stepRow env p).1 := by
        rw [runLoop_cons]; simp [hc]
      rw [step]; exact uniform_stepRow env p
    · have hc' : (stepRow env p).2 = false := by simpa using hc
      have step : (runLoop env (p :: rest)).1
          = (stepRow env p).1 ++ (runLoop env rest).1 := by
        rw [runLoop_cons]; simp [hc']
      rw [step, List.filter_append, List.countP_append, List.replicate_add,
          uniform_stepRow env p, ih]

/-! Helper lemmas about the filtered worklist. -/

/-- Membership in the filtered worklist, characterized by the original
row at that position and the inclusion predicate. -/
theorem mem_candidateRows (rows : List Row) (j : Nat) (r : Row) :
    (j, r) ∈ candidateRows rows ↔ rows[j]? = some r ∧ conclusionPass r = true := by
  simp [candidateRows, List.mem_filter, List.mk_mem_enum_iff_getElem?]

/-- Indices in an enumeration from `n` are at least `n`. -/
theorem le_fst_of_mem_enumFrom {n : Nat} {l : List Row} {p : Nat × Row}
    (h : p ∈ List.enumFrom n l) : n ≤ p.1 := by
  obtain ⟨i, r⟩ := p
  exact (List.mk_mem_enumFrom_iff_le_and_getElem?_sub.mp h).1

/-- The indices of an enumeration are strictly increasing. -/
theorem pairwise_fst_lt_enumFrom (n : Nat) (l : List Row) :
    List.Pairwise (fun a b : Nat × Row => a.1 < b.1) (List.enumFrom n l) := by
  induction l generalizing n with
  | nil => simp
  | cons a as ih =>
    simp only [List.enumFrom_cons]
    constructor
    · intro p hp
      have := le_fst_of_mem_enumFrom hp
      omega
    · exact ih (n + 1)

/-- The row indices of the filtered worklist are strictly increasing. -/
theorem pairwise_fst_lt_candidateRows (rows : List Row) :
    List.Pairwise (fun a b : Nat × Row => a.1 < b.1) (candidateRows rows) :=
  List.Pairwise.sublist (List.filter_sublist _) (pairwise_fst_lt_enumFrom 0 rows)

/-- If the iterations before `q` do not crash and `q`'s does, the loop
trace is the events of those iterations followed by `q`'s, and the loop
crashes: nothing after `q` is processed. -/
theorem runLoop_crash_split (env : Env) (l1 l2 : List (Nat × Row)) (q : Nat × Row)
    (h1 : ∀ p ∈ l1, (stepRow env p).2 = false) (hq : (stepRow env q).2 = true) :
    runLoop env (l1 ++ q :: l2) = ((runLoop env l1).1 ++ (stepRow env q).1, true) := by
  induction l1 with
  | nil => simp [runLoop_cons, hq, runLoop]
  | cons p rest ih =>
    have hp := h1 p (by simp)
    have ih2 := ih fun a ha => h1 a (by simp [ha])
    simp [List.cons_append, runLoop_cons, hp, ih2]

/-! Helper lemmas about the whole run. -/

/-- Unfolding of the run when candidates exist and the loop does not
crash. -/
theorem runMain_sheet_no_crash (rows : List Row) (env : Env)
    (hne : (candidateRows rows).isEmpty = false)
    (h : (runLoop env (candidateRows rows)).2 = false) :
    runMain (.sheet rows) env
      = (preludeEvents env (candidateRows rows).length
          ++ (runLoop env (candidateRows rows)).1 ++ [.closeBrowser, .batchDone],
         .normal) := by
  simp [runMain, hne, h]

/-- Unfolding of the run when candidates exist and the loop crashes. -/
theorem runMain_sheet_crash (rows : List Row) (env : Env)
    (hne : (candidateRows rows).isEmpty = false)
    (h : (runLoop env (candidateRows rows)).2 = true) :
    runMain (.sheet rows) env
      = (preludeEvents env (candidateRows rows).length
          ++ (runLoop env (candidateRows rows)).1 ++ [.closeBrowser],
         .crashed) := by
  simp [runMain, hne, h]

/-- The session event is never a scrape attempt. -/
theorem isStartScrapeAt_sessionEvent (env : Env) (j : Nat) :
    isStartScrapeAt j (sessionEvent env) = false := by
  cases h : env.sessionLoad <;> simp [sessionEvent, h, isStartScrapeAt]

/-- The session event is never a Skipped outcome. -/
theorem isSkippedAt_sessionEvent (env : Env) (j : Nat) :
    isSkippedAt j (sessionEvent env) = false := by
  cases h : env.sessionLoad <;> simp [sessionEvent, h, isSkippedAt]

/-- The session event is not an outcome. -/
theorem outcomeIdx_sessionEvent (env : Env) :
    outcomeIdx (sessionEvent env) = none := by
  cases h : env.sessionLoad <;> simp [sessionEvent, h, outcomeIdx]

/-- The session event is not an open-browser event. -/
theorem isOpenBrowser_sessionEvent (env : Env) :
    isOpenBrowser (sessionEvent env) = false := by
  cases h : env.sessionLoad <;> simp [sessionEvent, h, isOpenBrowser]

/-- The session event is not a close-browser event. -/
theorem isCloseBrowser_sessionEvent (env : Env) :
    isCloseBrowser (sessionEvent env) = false := by
  cases h : env.sessionLoad <;> simp [sessionEvent, h, isCloseBrowser]

/-- The session event is not a pacing sleep. -/
theorem isUniformSleep_sessionEvent (env : Env) :
    isUniformSleep (sessionEvent env) = false := by
  cases h : env.sessionLoad <;> simp [sessionEvent, h, isUniformSleep]

/-- The session event is not a Success outcome. -/
theorem isSuccessEvent_sessionEvent (env : Env) :
    isSuccessEvent (sessionEvent env) = false := by
  cases h : env.sessionLoad <;> simp [sessionEvent, h, isSuccessEvent]

/-- The pre-loop events contain no pacing sleep. -/
theorem uniform_filter_prelude (env : Env) (n : Nat) :
    (preludeEvents env n).filter isUniformSleep = [] := by
  cases h : env.sessionLoad <;>
    simp [preludeEvents, sessionEvent, h, isUniformSleep]

/-- The pre-loop events contain no Success outcome. -/
theorem success_countP_prelude (env : Env) (n : Nat) :
    (preludeEvents env n).countP isSuccessEvent = 0 := by
  cases h : env.sessionLoad <;>
    simp [preludeEvents, sessionEvent, h, isSuccessEvent]

/-- The pre-loop events contain no outcome. -/
theorem outcomeIndices_prelude (env : Env) (n : Nat) :
    outcomeIndices (preludeEvents env n) = [] := by
  cases h : env.sessionLoad <;>
    simp [preludeEvents, sessionEvent, h, outcomeIndices, outcomeIdx]

/-- The pre-loop events contain no scrape attempt. -/
theorem scrapeAttempted_prelude (env : Env) (n j : Nat) :
    (preludeEvents env n).any (isStartScrapeAt j) = false := by
  cases h : env.sessionLoad <;>
    simp [preludeEvents, sessionEvent, h, isStartScrapeAt]

/-- The pre-loop events contain no Skipped outcome. -/
theorem skippedAt_prelude (env : Env) (n j : Nat) :
    (preludeEvents env n).any (isSkippedAt j) = false := by
  cases h : env.sessionLoad <;>
    simp [preludeEvents, sessionEvent, h, isSkippedAt]

/-! Claim theorems. -/

/-- Claim C5: if the tabular input source is missing or cannot be
read/parsed, the run aborts immediately after reporting the error, before
any browsing context is opened and before any candidate is attempted,
with zero outcomes recorded. -/
theorem input_failure_aborts_before_browser (env : Env) (m : String) :
    ((runMain .missing env).1.any isOpenBrowser = false
      ∧ outcomeIndices (runMain .missing env).1 = []
      ∧ (∀ j, scrapeAttempted (runMain .missing env).1 j = false)
      ∧ (runMain .missing env).2 = .abortedInput)
    ∧ ((runMain (.unreadable m) env).1.any isOpenBrowser = false
      ∧ outcomeIndices (runMain (.unreadable m) env).1 = []
      ∧ (∀ j, scrapeAttempted (runMain (.unreadable m) env).1 j = false)
      ∧ (runMain (.unreadable m) env).2 = .abortedInput) :=
  ⟨⟨rfl, rfl, fun _ => rfl, rfl⟩, ⟨rfl, rfl, fun _ => rfl, rfl⟩⟩

/-- Claim C6: the browsing environment is released on every exit path
from the batch: a close-browser event appears in the trace exactly when
an open-browser event does, for every input source and every collaborator
behaviour (normal completion, early abort, and a failure propagating out
of the loop alike). -/
theorem browser_released_on_every_exit (src : ExcelSource) (env : Env) :
    (runMain src env).1.any isOpenBrowser
      = (runMain src env).1.any isCloseBrowser := by
  cases src with
  | missing => rfl
  | unreadable m => rfl
  | sheet rows =>
    by_cases hne : (candidateRows rows).isEmpty = true
    · simp [runMain, hne, isOpenBrowser, isCloseBrowser]
    · have hne' : (candidateRows rows).isEmpty = false := by simpa using hne
      have hopen := any_runLoop_false env isOpenBrowser (candidateRows rows)
        (no_open_stepRow env)
      have hclose := any_runLoop_false env isCloseBrowser (candidateRows rows)
        (no_close_stepRow env)
      by_cases hc : (runLoop env (candidateRows rows)).2 = true
      · rw [runMain_sheet_crash rows env hne' hc]
        simp [List.any_append, preludeEvents, isOpenBrowser, isCloseBrowser,
              isOpenBrowser_sessionEvent, isCloseBrowser_sessionEvent,
              hopen, hclose]
      · have hc' : (runLoop env (candidateRows rows)).2 = false := by simpa using hc
        rw [runMain_sheet_no_crash rows env hne' hc']
        simp [List.any_append, preludeEvents, isOpenBrowser, isCloseBrowser,
              isOpenBrowser_sessionEvent, isCloseBrowser_sessionEvent,
              hopen, hclose]

/-- Claim C2, counterexample: on the failure path no pacing delay is
imposed at all.  With a single accepted candidate whose scrape raises
(and a successful screenshot), the scrape is attempted, the run completes
normally, and the trace contains no randomized pacing sleep. -/
theorem pacing_after_failure_false :
    scrapeAttempted (runMain (.sheet [rowYesA]) envAllFail).1 0 = true
    ∧ (runMain (.sheet [rowYesA]) envAllFail).1.any isUniformSleep = false
    ∧ (runMain (.sheet [rowYesA]) envAllFail).2 = .normal :=
  ⟨by decide, by decide, by decide⟩

/-- Claim C2, amended: a pacing delay is imposed exactly once per
successfully scraped candidate (none after a failed or skipped one), and
every imposed pacing delay is drawn by a uniform(2.2, 4.313) call: the
pacing-sleep events of any run's trace are exactly one
`sleepUniform 2.2 4.313` per Success outcome. -/
theorem pacing_only_after_success (src : ExcelSource) (env : Env) :
    (runMain src env).1.filter isUniformSleep
      = List.replicate ((runMain src env).1.countP isSuccessEvent)
          (.sleepUniform jitterLo jitterHi) := by
  cases src with
  | missing => rfl
  | unreadable m => rfl
  | sheet rows =>
    by_cases hne : (candidateRows rows).isEmpty = true
    · simp [runMain, hne, isUniformSleep, isSuccessEvent]
    · have hne' : (candidateRows rows).isEmpty = false := by simpa using hne
      have hloop := uniform_runLoop env (candidateRows rows)
      by_cases hc : (runLoop env (candidateRows rows)).2 = true
      · rw [runMain_sheet_crash rows env hne' hc]
        rw [List.filter_append, List.filter_append,
            List.countP_append, List.countP_append,
            List.replicate_add, List.replicate_add, hloop,
            uniform_filter_prelude, success_countP_prelude]
        simp [isUniformSleep, isSuccessEvent]
      · have hc' : (runLoop env (candidateRows rows)).2 = false := by simpa using hc
        rw [runMain_sheet_no_crash rows env hne' hc']
        rw [List.filter_append, List.filter_append,
            List.countP_append, List.countP_append,
            List.replicate_add, List.replicate_add, hloop,
            uniform_filter_prelude, success_countP_prelude]
        simp [isUniformSleep, isSuccessEvent]

/-- Claim C3, counterexample: two rows pass the inclusion filter, but
when the first candidate's scrape raises and its diagnostic screenshot
also raises, the run records only one outcome — the second filtered row
yields none. -/
theorem outcomes_equal_filtered_false :
    (candidateRows [rowYesA, rowYesB]).length = 2
    ∧ outcomeIndices (runMain (.sheet [rowYesA, rowYesB]) envShotCrash).1 = [0] :=
  ⟨by decide, by decide⟩

/-- Claim C3, amended: provided no diagnostic screenshot capture fails,
every worklist row that passes the inclusion filter produces exactly one
outcome (Success, Skipped, or Failed), in worklist order, keyed by its
original row index — never zero and never more than one. -/
theorem outcomes_equal_filtered_when_screenshots_ok (rows : List Row) (env : Env)
    (hs : ∀ i, env.screenshotOk i = true) :
    outcomeIndices (runMain (.sheet rows) env).1
      = (candidateRows rows).map Prod.fst := by
  have hok : ∀ p ∈ candidateRows rows, (stepRow env p).2 = false :=
    fun p _ => stepRow_not_crashed env p (hs p.1)
  by_cases hne : (candidateRows rows).isEmpty = true
  · have hnil : candidateRows rows = [] := by simpa using hne
    simp [runMain, hne, hnil, outcomeIndices, outcomeIdx]
  · have hne' : (candidateRows rows).isEmpty = false := by simpa using hne
    rw [runMain_sheet_no_crash rows env hne' (runLoop_not_crashed env _ hok)]
    rw [outcomeIndices_append, outcomeIndices_append,
        outcomeIndices_runLoop env _ hok, outcomeIndices_prelude]
    simp [outcomeIndices, outcomeIdx]

/-- Witness for the amended C3 at a concrete input. -/
theorem outcomes_equal_filtered_when_screenshots_ok_witness :
    (∀ i, envAllOk.screenshotOk i = true)
    ∧ outcomeIndices (runMain (.sheet [rowYesA, rowYesB]) envAllOk).1
        = (candidateRows [rowYesA, rowYesB]).map Prod.fst :=
  ⟨fun _ => rfl,
   outcomes_equal_filtered_when_screenshots_ok [rowYesA, rowYesB] envAllOk
     fun _ => rfl⟩

/-- Claim C1, counterexample: the code case-folds but does not trim the
conclusion field.  A row whose conclusion cell is `" yes "` satisfies the
claimed inclusion condition (case-folded and trimmed it equals `"yes"`,
and the URL is present and usable), yet no scrape is attempted for it. -/
theorem candidate_iff_trimmed_conclusion_false :
    pyLower (pyStrip (rowPadded.conclusion.getD "")) = "yes"
    ∧ urlPresent rowPadded.linkedin = true
    ∧ ([rowPadded])[0]? = some rowPadded
    ∧ scrapeAttempted (runMain (.sheet [rowPadded]) envAllOk).1 0 = false :=
  ⟨by decide, by decide, by decide, by decide⟩

/-- Claim C1, amended: provided no diagnostic screenshot capture fails
(a screenshot failure aborts the loop early), a row yields a scrape
attempt iff its case-folded — but NOT trimmed — conclusion field (absent
values as the empty string) equals "yes" AND its profile-URL field is
present, not a missing-value marker, and not the empty string. -/
theorem candidate_iff_folded_conclusion_and_url (rows : List Row) (env : Env)
    (hs : ∀ i, env.screenshotOk i = true) (j : Nat) :
    scrapeAttempted (runMain (.sheet rows) env).1 j = true
      ↔ ∃ r, rows[j]? = some r ∧ pyLower (r.conclusion.getD "") = "yes"
             ∧ urlPresent r.linkedin = true := by
  have hok : ∀ p ∈ candidateRows rows, (stepRow env p).2 = false :=
    fun p _ => stepRow_not_crashed env p (hs p.1)
  by_cases hne : (candidateRows rows).isEmpty = true
  · have hnil : candidateRows rows = [] := by simpa using hne
    constructor
    · intro h
      exfalso
      simp [runMain, hne, scrapeAttempted, isStartScrapeAt] at h
    · rintro ⟨r, hr, hc, _⟩
      exfalso
      have : (j, r) ∈ candidateRows rows :=
        (mem_candidateRows rows j r).mpr ⟨hr, by simp [conclusionPass, hc]⟩
      simp [hnil] at this
  · have hne' : (candidateRows rows).isEmpty = false := by simpa using hne
    rw [runMain_sheet_no_crash rows env hne' (runLoop_not_crashed env _ hok)]
    rw [scrapeAttempted, List.any_append, List.any_append,
        scrapeAttempted_prelude, any_runLoop env _ _ hok]
    simp only [scrapeAttempted_stepRow]
    constructor
    · intro h
      simp only [Bool.false_or, List.any_eq_true, Bool.or_eq_true] at h
      rcases h with ⟨p, hp, hpj⟩ | hlast
      · simp only [Bool.and_eq_true, beq_iff_eq] at hpj
        obtain ⟨hj, hurl⟩ := hpj
        obtain ⟨hr, hc⟩ := (mem_candidateRows rows p.1 p.2).mp hp
        refine ⟨p.2, ?_, ?_, hurl⟩
        · rw [← hj]; exact hr
        · simpa [conclusionPass] using hc
      · simp [isStartScrapeAt] at hlast
    · rintro ⟨r, hr, hc, hurl⟩
      have hmem : (j, r) ∈ candidateRows rows :=
        (mem_candidateRows rows j r).mpr ⟨hr, by simp [conclusionPass, hc]⟩
      simp only [Bool.false_or, List.any_eq_true, Bool.or_eq_true]
      left
      exact ⟨(j, r), hmem, by simp [hurl]⟩

/-- Witness for the amended C1 at a concrete input. -/
theorem candidate_iff_folded_conclusion_and_url_witness :
    (∀ i, envAllOk.screenshotOk i = true)
    ∧ (scrapeAttempted (runMain (.sheet [rowYesA]) envAllOk).1 0 = true
        ↔ ∃ r, ([rowYesA])[0]? = some r ∧ pyLower (r.conclusion.getD "") = "yes"
               ∧ urlPresent r.linkedin = true) :=
  ⟨fun _ => rfl,
   candidate_iff_folded_conclusion_and_url [rowYesA] envAllOk (fun _ => rfl) 0⟩

/-- Claim C4, counterexample: a scrape error is not always absorbed.
With two accepted candidates, the first one's scrape raises and its
diagnostic screenshot also raises: the error propagates out of the loop
(the run crashes) and the second candidate is never attempted. -/
theorem scrape_error_isolation_false :
    (1, rowYesB) ∈ candidateRows [rowYesA, rowYesB]
    ∧ envShotCrash.scrape 0 (pyStrip "https://x/a") = .err errT
    ∧ (runMain (.sheet [rowYesA, rowYesB]) envShotCrash).2 = .crashed
    ∧ scrapeAttempted (runMain (.sheet [rowYesA, rowYesB]) envShotCrash).1 1 = false :=
  ⟨by decide, rfl, by decide, by decide⟩

/-- Claim C4, amended: provided the diagnostic screenshot captures
succeed, any error raised by the scraper is absorbed at the executor
boundary: the error kind, message and current page URL are recorded in a
Failed outcome, the screenshot artifact "error_{index}.png" is requested,
and the batch still runs to normal completion. -/
theorem scrape_error_isolated_when_screenshot_ok (rows : List Row) (env : Env)
    (i : Nat) (r : Row) (u : String) (e : ScrapeErr)
    (hs : ∀ j, env.screenshotOk j = true)
    (hmem : (i, r) ∈ candidateRows rows)
    (hu : r.linkedin = some u) (hut : pyTruthy u = true)
    (herr : env.scrape i (pyStrip u) = .err e) :
    Event.outcomeFailed i e.kind e.msg (env.pageURL i) ∈ (runMain (.sheet rows) env).1
    ∧ Event.screenshot (screenshotPath i) ∈ (runMain (.sheet rows) env).1
    ∧ (runMain (.sheet rows) env).2 = .normal := by
  have hok : ∀ p ∈ candidateRows rows, (stepRow env p).2 = false :=
    fun p _ => stepRow_not_crashed env p (hs p.1)
  have hne' : (candidateRows rows).isEmpty = false := by
    have hnil := List.ne_nil_of_mem hmem
    cases hcr : candidateRows rows
    · exact absurd hcr hnil
    · rfl
  rw [runMain_sheet_no_crash rows env hne' (runLoop_not_crashed env _ hok)]
  have hstep : stepRow env (i, r)
      = (failEvents env i (pyStrip u) e ++ [.screenshot (screenshotPath i)], false) :=
    stepRow_fail_shot env i r u e hu hut herr (hs i)
  refine ⟨?_, ?_, rfl⟩
  · have : Event.outcomeFailed i e.kind e.msg (env.pageURL i)
        ∈ (runLoop env (candidateRows rows)).1 := by
      refine mem_runLoop_of_mem_step env _ (i, r) _ hok hmem ?_
      rw [hstep]
      simp [failEvents]
    simp [List.mem_append, this]
  · have : Event.screenshot (screenshotPath i)
        ∈ (runLoop env (candidateRows rows)).1 := by
      refine mem_runLoop_of_mem_step env _ (i, r) _ hok hmem ?_
      rw [hstep]
      simp
    simp [List.mem_append, this]

/-- Witness for the amended C4 at a concrete input. -/
theorem scrape_error_isolated_when_screenshot_ok_witness :
    (∀ j, envAllFail.screenshotOk j = true)
    ∧ (0, rowYesA) ∈ candidateRows [rowYesA]
    ∧ rowYesA.linkedin = some "https://x/a"
    ∧ pyTruthy "https://x/a" = true
    ∧ envAllFail.scrape 0 (pyStrip "https://x/a") = .err errT
    ∧ (Event.outcomeFailed 0 errT.kind errT.msg (envAllFail.pageURL 0)
         ∈ (runMain (.sheet [rowYesA]) envAllFail).1
      ∧ Event.screenshot (screenshotPath 0) ∈ (runMain (.sheet [rowYesA]) envAllFail).1
      ∧ (runMain (.sheet [rowYesA]) envAllFail).2 = .normal) :=
  ⟨fun _ => rfl, by decide, rfl, by decide, rfl,
   scrape_error_isolated_when_screenshot_ok [rowYesA] envAllFail 0 rowYesA
     "https://x/a" errT (fun _ => rfl) (by decide) rfl (by decide) rfl⟩

/-- One loop iteration does not depend on the session-load result. -/
theorem stepRow_sessionLoad (env : Env) (s : Except String Unit) (p : Nat × Row) :
    stepRow { env with sessionLoad := s } p = stepRow env p := rfl

/-- The loop does not depend on the session-load result. -/
theorem runLoop_sessionLoad (env : Env) (s : Except String Unit)
    (l : List (Nat × Row)) :
    runLoop { env with sessionLoad := s } l = runLoop env l := by
  induction l with
  | nil => rfl
  | cons p rest ih => rw [runLoop_cons, runLoop_cons, stepRow_sessionLoad, ih]

/-- Claim C7: a failure while restoring the session state artifact is
never fatal and never raises out of the batch: a warning event is
emitted, and the run exits the same way and attempts exactly the same
scrapes as it would had the session loaded. -/
theorem session_failure_nonfatal (rows : List Row) (env : Env) (m : String)
    (hne : (candidateRows rows).isEmpty = false)
    (hfail : env.sessionLoad = .error m) :
    Event.sessionWarn m ∈ (runMain (.sheet rows) env).1
    ∧ (runMain (.sheet rows) env).2
        = (runMain (.sheet rows) { env with sessionLoad := .ok () }).2
    ∧ ∀ j, scrapeAttempted (runMain (.sheet rows) env).1 j
        = scrapeAttempted (runMain (.sheet rows) { env with sessionLoad := .ok () }).1 j := by
  have hsess : sessionEvent env = .sessionWarn m := by simp [sessionEvent, hfail]
  by_cases hc : (runLoop env (candidateRows rows)).2 = true
  · have hc2 : (runLoop { env with sessionLoad := .ok () } (candidateRows rows)).2 = true := by
      rw [runLoop_sessionLoad]; exact hc
    rw [runMain_sheet_crash rows env hne hc, runMain_sheet_crash rows _ hne hc2]
    refine ⟨?_, rfl, ?_⟩
    · simp [preludeEvents, hsess]
    · intro j
      rw [scrapeAttempted, scrapeAttempted]
      simp only [List.any_append, runLoop_sessionLoad,
                 scrapeAttempted_prelude]
  · have hc' : (runLoop env (candidateRows rows)).2 = false := by simpa using hc
    have hc2 : (runLoop { env with sessionLoad := .ok () } (candidateRows rows)).2 = false := by
      rw [runLoop_sessionLoad]; exact hc'
    rw [runMain_sheet_no_crash rows env hne hc', runMain_sheet_no_crash rows _ hne hc2]
    refine ⟨?_, rfl, ?_⟩
    · simp [preludeEvents, hsess]
    · intro j
      rw [scrapeAttempted, scrapeAttempted]
      simp only [List.any_append, runLoop_sessionLoad,
                 scrapeAttempted_prelude]

/-- Witness for C7 at a concrete input. -/
theorem session_failure_nonfatal_witness :
    (candidateRows [rowYesA]).isEmpty = false
    ∧ envSessFail.sessionLoad = .error "file not found"
    ∧ (Event.sessionWarn "file not found" ∈ (runMain (.sheet [rowYesA]) envSessFail).1
      ∧ (runMain (.sheet [rowYesA]) envSessFail).2
          = (runMain (.sheet [rowYesA]) { envSessFail with sessionLoad := .ok () }).2
      ∧ ∀ j, scrapeAttempted (runMain (.sheet [rowYesA]) envSessFail).1 j
          = scrapeAttempted
              (runMain (.sheet [rowYesA]) { envSessFail with sessionLoad := .ok () }).1 j) :=
  ⟨by decide, rfl,
   session_failure_nonfatal [rowYesA] envSessFail "file not found" (by decide) rfl⟩

set_option maxRecDepth 4000 in
/-- Claim C8, counterexample: the Success report does not always carry
the about-text truncated to 100 characters.  For a candidate whose
scrape succeeds with an empty/absent about-text, the code reports the
placeholder "N/A" instead of the (empty) truncation, while still
sleeping the 15-unit settle period before recording success. -/
theorem success_summary_truncation_false :
    envNoAbout.scrape 0 (pyStrip "https://x/a") = .ok personNoAbout
    ∧ stepRow envNoAbout (0, rowYesA)
        = ([.startScrape 0 (pyStrip "https://x/a"), .sleepFixed settleSecs,
            .outcomeSuccess 0 (mkSummary personNoAbout),
            .sleepUniform jitterLo jitterHi], false)
    ∧ personNoAbout.about = ""
    ∧ personNoAbout.about.take 100 = ""
    ∧ (mkSummary personNoAbout).aboutShown = "N/A"
    ∧ (mkSummary personNoAbout).aboutShown ≠ personNoAbout.about.take 100 :=
  ⟨rfl, rfl, rfl, rfl, rfl, by
    rw [(show personNoAbout.about.take 100 = "" from rfl)]
    decide⟩

/-- Claim C8, amended: for every candidate whose scrape succeeds, the
executor sleeps the fixed 15-unit settle period after the scrape and
before recording the Success outcome and returning control, and the
Success report summarizes exactly the name, the location, the about-text
truncated to its first 100 characters when the about-text is nonempty
(the placeholder "N/A" when it is empty/absent), and the count plus
first two entries of the experience and education sequences. -/
theorem success_settle_and_summary (env : Env) (i : Nat) (r : Row) (u : String)
    (person : Person)
    (hu : r.linkedin = some u) (hut : pyTruthy u = true)
    (hok : env.scrape i (pyStrip u) = .ok person) :
    stepRow env (i, r)
      = ([.startScrape i (pyStrip u), .sleepFixed settleSecs,
          .outcomeSuccess i (mkSummary person),
          .sleepUniform jitterLo jitterHi], false)
    ∧ settleSecs = 15
    ∧ (mkSummary person).name = person.name
    ∧ (mkSummary person).location = person.location
    ∧ (mkSummary person).aboutShown
        = (if person.about = "" then "N/A" else person.about.take 100)
    ∧ (mkSummary person).expCount = person.experiences.length
    ∧ (mkSummary person).expShown = person.experiences.take 2
    ∧ (mkSummary person).eduCount = person.educations.length
    ∧ (mkSummary person).eduShown = person.educations.take 2 := by
  refine ⟨?_, rfl, rfl, rfl, rfl, rfl, rfl, rfl, rfl⟩
  rw [stepRow_ok env i r u person hu hut hok]; rfl

/-- Witness for the amended C8 at a concrete input. -/
theorem success_settle_and_summary_witness :
    rowYesA.linkedin = some "https://x/a"
    ∧ pyTruthy "https://x/a" = true
    ∧ envAllOk.scrape 0 (pyStrip "https://x/a") = .ok personA
    ∧ (stepRow envAllOk (0, rowYesA)
        = ([.startScrape 0 (pyStrip "https://x/a"), .sleepFixed settleSecs,
            .outcomeSuccess 0 (mkSummary personA),
            .sleepUniform jitterLo jitterHi], false)
      ∧ settleSecs = 15
      ∧ (mkSummary personA).name = personA.name
      ∧ (mkSummary personA).location = personA.location
      ∧ (mkSummary personA).aboutShown
          = (if personA.about = "" then "N/A" else personA.about.take 100)
      ∧ (mkSummary personA).expCount = personA.experiences.length
      ∧ (mkSummary personA).expShown = personA.experiences.take 2
      ∧ (mkSummary personA).eduCount = personA.educations.length
      ∧ (mkSummary personA).eduShown = personA.educations.take 2) :=
  ⟨rfl, by decide, rfl,
   success_settle_and_summary envAllOk 0 rowYesA "https://x/a" personA
     rfl (by decide) rfl⟩

/-- Claim C9: for a filtered row whose profile-URL cell is a nonempty
whitespace-only string, the URL-presence check passes (the value is
neither falsy nor NaN), so a scrape is attempted with the empty string
left after stripping, and the row is not recorded as Skipped. -/
theorem whitespace_url_attempted (rows : List Row) (env : Env)
    (i : Nat) (r : Row) (u : String)
    (hs : ∀ j, env.screenshotOk j = true)
    (hmem : (i, r) ∈ candidateRows rows)
    (hu : r.linkedin = some u) (hut : pyTruthy u = true) (htrim : pyStrip u = "") :
    Event.startScrape i "" ∈ (runMain (.sheet rows) env).1
    ∧ (runMain (.sheet rows) env).1.any (isSkippedAt i) = false := by
  have hok : ∀ p ∈ candidateRows rows, (stepRow env p).2 = false :=
    fun p _ => stepRow_not_crashed env p (hs p.1)
  have hne' : (candidateRows rows).isEmpty = false := by
    have hnil := List.ne_nil_of_mem hmem
    cases hcr : candidateRows rows
    · exact absurd hcr hnil
    · rfl
  rw [runMain_sheet_no_crash rows env hne' (runLoop_not_crashed env _ hok)]
  constructor
  · have hstart : Event.startScrape i (pyStrip u) ∈ (stepRow env (i, r)).1 := by
      rcases hsc : env.scrape i (pyStrip u) with person | e
      · rw [stepRow_ok env i r u person hu hut hsc]; simp [successEvents]
      · rw [stepRow_fail_shot env i r u e hu hut hsc (hs i)]; simp [failEvents]
    rw [htrim] at hstart
    have hloop := mem_runLoop_of_mem_step env _ (i, r) _ hok hmem hstart
    simp [List.mem_append, hloop]
  · rw [List.any_append, List.any_append, skippedAt_prelude,
        any_runLoop env _ _ hok]
    simp only [skippedAt_stepRow]
    have hcand : ((candidateRows rows).any
        fun p => p.1 == i && !urlPresent p.2.linkedin) = false := by
      rw [List.any_eq_false]
      intro p hp
      by_cases hj : p.1 = i
      · obtain ⟨hr, _⟩ := (mem_candidateRows rows p.1 p.2).mp hp
        obtain ⟨hr2, _⟩ := (mem_candidateRows rows i r).mp hmem
        rw [hj] at hr
        rw [hr] at hr2
        have hpr : p.2 = r := Option.some.inj hr2
        simp [hpr, urlPresent, hu, hut]
      · simp [hj]
    rw [hcand]
    simp [isSkippedAt]

/-- Witness for C9 at a concrete input. -/
theorem whitespace_url_attempted_witness :
    (∀ j, envAllOk.screenshotOk j = true)
    ∧ (0, rowWs) ∈ candidateRows [rowWs]
    ∧ rowWs.linkedin = some "   "
    ∧ pyTruthy "   " = true
    ∧ pyStrip "   " = ""
    ∧ (Event.startScrape 0 "" ∈ (runMain (.sheet [rowWs]) envAllOk).1
      ∧ (runMain (.sheet [rowWs]) envAllOk).1.any (isSkippedAt 0) = false) :=
  ⟨fun _ => rfl, by decide, rfl, by decide, by decide,
   whitespace_url_attempted [rowWs] envAllOk 0 rowWs "   "
     (fun _ => rfl) (by decide) rfl (by decide) (by decide)⟩

/-- Claim C10: the diagnostic screenshot capture inside the per-candidate
failure handler is unguarded.  If a candidate's scrape fails and the
screenshot capture also raises, the error propagates out of the batch
loop: the run crashes, no later filtered row is ever attempted — failure
isolation no longer holds — while the browsing environment is still
released and the candidate's own Failed outcome was already recorded. -/
theorem unguarded_screenshot_crash (rows : List Row) (env : Env)
    (i : Nat) (r : Row) (u : String) (e : ScrapeErr)
    (hso : ∀ j, j ≠ i → env.screenshotOk j = true)
    (hmem : (i, r) ∈ candidateRows rows)
    (hu : r.linkedin = some u) (hut : pyTruthy u = true)
    (herr : env.scrape i (pyStrip u) = .err e)
    (hshot : env.screenshotOk i = false) :
    (runMain (.sheet rows) env).2 = .crashed
    ∧ (runMain (.sheet rows) env).1.any isCloseBrowser = true
    ∧ Event.outcomeFailed i e.kind e.msg (env.pageURL i) ∈ (runMain (.sheet rows) env).1
    ∧ ∀ j r', (j, r') ∈ candidateRows rows → i < j →
        scrapeAttempted (runMain (.sheet rows) env).1 j = false := by
  have hne' : (candidateRows rows).isEmpty = false := by
    have hnil := List.ne_nil_of_mem hmem
    cases hcr : candidateRows rows
    · exact absurd hcr hnil
    · rfl
  obtain ⟨l1, l2, hsplit⟩ := List.append_of_mem hmem
  have hpw := pairwise_fst_lt_candidateRows rows
  rw [hsplit] at hpw
  obtain ⟨hpw1, hpw2, hcross⟩ := List.pairwise_append.mp hpw
  have hlt1 : ∀ p ∈ l1, p.1 < i :=
    fun p hp => hcross p hp (i, r) (List.mem_cons_self _ _)
  have h1 : ∀ p ∈ l1, (stepRow env p).2 = false :=
    fun p hp => stepRow_not_crashed env p (hso p.1 (Nat.ne_of_lt (hlt1 p hp)))
  have hq : (stepRow env (i, r)).2 = true := by
    rw [stepRow_fail_noshot env i r u e hu hut herr hshot]
  have hloop : runLoop env (candidateRows rows)
      = ((runLoop env l1).1 ++ (stepRow env (i, r)).1, true) := by
    rw [hsplit]
    exact runLoop_crash_split env l1 l2 (i, r) h1 hq
  have hc : (runLoop env (candidateRows rows)).2 = true := by rw [hloop]
  rw [runMain_sheet_crash rows env hne' hc]
  refine ⟨rfl, ?_, ?_, ?_⟩
  · simp [List.any_append, isCloseBrowser]
  · have : Event.outcomeFailed i e.kind e.msg (env.pageURL i)
        ∈ (runLoop env (candidateRows rows)).1 := by
      rw [hloop]
      have : Event.outcomeFailed i e.kind e.msg (env.pageURL i)
          ∈ (stepRow env (i, r)).1 := by
        rw [stepRow_fail_noshot env i r u e hu hut herr hshot]
        simp [failEvents]
      simp [List.mem_append, this]
    simp [List.mem_append, this]
  · intro j r' hmem' hij
    rw [scrapeAttempted, List.any_append, List.any_append,
        scrapeAttempted_prelude, hloop]
    rw [List.any_append, any_runLoop env _ _ h1]
    simp only [scrapeAttempted_stepRow]
    have hl1 : (l1.any fun p => p.1 == j && urlPresent p.2.linkedin) = false := by
      rw [List.any_eq_false]
      intro p hp
      have : p.1 ≠ j := Nat.ne_of_lt (Nat.lt_trans (hlt1 p hp) hij)
      simp [this]
    have hstep : ((i, r).1 == j && urlPresent (i, r).2.linkedin) = false := by
      have : i ≠ j := Nat.ne_of_lt hij
      simp [this]
    rw [hl1, hstep]
    simp [isStartScrapeAt]

/-- Witness for C10 at a concrete input. -/
theorem unguarded_screenshot_crash_witness :
    (∀ j, j ≠ 0 → envShotCrash.screenshotOk j = true)
    ∧ (0, rowYesA) ∈ candidateRows [rowYesA, rowYesB]
    ∧ rowYesA.linkedin = some "https://x/a"
    ∧ pyTruthy "https://x/a" = true
    ∧ envShotCrash.scrape 0 (pyStrip "https://x/a") = .err errT
    ∧ envShotCrash.screenshotOk 0 = false
    ∧ ((runMain (.sheet [rowYesA, rowYesB]) envShotCrash).2 = .crashed
      ∧ (runMain (.sheet [rowYesA, rowYesB]) envShotCrash).1.any isCloseBrowser = true
      ∧ Event.outcomeFailed 0 errT.kind errT.msg (envShotCrash.pageURL 0)
          ∈ (runMain (.sheet [rowYesA, rowYesB]) envShotCrash).1
      ∧ ∀ j r', (j, r') ∈ candidateRows [rowYesA, rowYesB] → 0 < j →
          scrapeAttempted (runMain (.sheet [rowYesA, rowYesB]) envShotCrash).1 j
            = false) :=
  ⟨fun j hj => by simp [envShotCrash]; exact hj,
   by decide, rfl, by decide, rfl, rfl,
   unguarded_screenshot_crash [rowYesA, rowYesB] envShotCrash 0 rowYesA
     "https://x/a" errT (fun j hj => by simp [envShotCrash]; exact hj)
     (by decide) rfl (by decide) rfl rfl⟩

end ScrapeBatch
